import Mathlib

/-!
Shallow embedding of the mcp-okta-auth repository (TypeScript sources:
auth-manager, service-registry, and the tool-call boundary of index.ts).

Modelling conventions:
* A browser cookie is a `Cookie` record; the `expires` field is
  `Option Int` where `none` models a missing / `undefined` expiry in the
  JSON-parsed cookie object. JavaScript truthiness of a numeric `expires`
  field (`cookie.expires && ...`) is modelled explicitly: the value `0`
  is falsy, every other number is truthy.
* The durable store (`~/.mcp-auth` plus legacy per-service files) is a
  record `FS`: the okta cookie file, the per-service cookie directory
  (a finite map from service key to the parsed list, a missing or
  unreadable file reading as `[]`, exactly as `loadServiceCookies`
  swallows read errors), and the legacy per-service cookie files used by
  `copySession` (`none` = file absent).
* `JSON.stringify` / `JSON.parse` round-trip on these plain records is
  the identity, so files store parsed `List Cookie` values directly.
* The interactive browser flow (`browserAuthenticate`) is modelled as an
  opaque outcome constructor `AuthStep.interactiveLogin`: the claims
  about `authenticate` only concern whether that capability is invoked.
* Wall-clock time (`Date.now() / 1000`) is an explicit `now : Int`
  parameter threaded through the functions that read it.
-/

namespace McpOktaAuth

/-- A cookie as produced by the browser context and stored in JSON files
(playwright `Cookie`, fields relevant to this program). -/
structure Cookie where
  name : String
  value : String
  domain : String
  path : String
  expires : Option Int
  deriving DecidableEq

/-- `sessionType` field of a service configuration. -/
inductive SessionType
  | cookie
  | token
  deriving DecidableEq

/-- One entry of `SERVICE_CONFIGS` (src/service-registry.ts). -/
structure ServiceConfig where
  name : String
  url : String
  cookieDomain : String
  sessionType : SessionType
  description : String
  legacyPath : Option String
  deriving DecidableEq

/-- The `datahub` entry of `SERVICE_CONFIGS`. -/
def datahubConfig : ServiceConfig :=
  { name := "DataHub"
    url := "https://datahub.eng.toasttab.com"
    cookieDomain := "datahub.eng.toasttab.com"
    sessionType := SessionType.cookie
    description := "Toast's metadata platform"
    legacyPath := some "~/.mcp-datahub/cookies.json" }

/-- The `splunk` entry of `SERVICE_CONFIGS`. -/
def splunkConfig : ServiceConfig :=
  { name := "Splunk Cloud"
    url := "https://toast.splunkcloud.com"
    cookieDomain := "toast.splunkcloud.com"
    sessionType := SessionType.token
    description := "Log aggregation and monitoring"
    legacyPath := some "~/.mcp-splunk/cookies.json" }

/-- The `zeppelin` entry of `SERVICE_CONFIGS`. -/
def zeppelinConfig : ServiceConfig :=
  { name := "Zeppelin"
    url := "https://zeppelin-okta.eng.toasttab.com"
    cookieDomain := "zeppelin-okta.eng.toasttab.com"
    sessionType := SessionType.cookie
    description := "Interactive data analytics notebooks"
    legacyPath := some "~/.mcp-zeppelin/cookies.json" }

/-- `SERVICE_CONFIGS` (src/service-registry.ts): the service catalog, an
ordered record keyed by service key. Object-key lookup is `List.lookup`. -/
def SERVICE_CONFIGS : List (String × ServiceConfig) :=
  [("datahub", datahubConfig), ("splunk", splunkConfig), ("zeppelin", zeppelinConfig)]

/-- `Object.keys(SERVICE_CONFIGS)`, in declaration order. -/
def serviceKeys : List String := SERVICE_CONFIGS.map (fun p => p.1)

/-- JavaScript `String.prototype.toLowerCase` for the ASCII keys this
program uses. -/
def toLowerCase (s : String) : String := String.mk (s.data.map Char.toLower)

/-- `ServiceRegistry.getService` (src/service-registry.ts line 48):
`SERVICE_CONFIGS[name.toLowerCase()]`. -/
def getService (name : String) : Option ServiceConfig :=
  SERVICE_CONFIGS.lookup (toLowerCase name)

/-- `ServiceRegistry.isValidService` (src/service-registry.ts line 52):
`name.toLowerCase() in SERVICE_CONFIGS`. -/
def isValidService (name : String) : Bool :=
  (SERVICE_CONFIGS.lookup (toLowerCase name)).isSome

/-- The durable on-disk state touched by `AuthManager`:
`okta` = content of `~/.mcp-auth/okta-cookies.json` (`none` = absent or
unparsable), `services` = the `~/.mcp-auth/services/<key>.json` files
(a missing file reads as `[]`), `legacy` = the `~/.mcp-<key>/cookies.json`
files written by `copySession` (`none` = absent). -/
structure FS where
  okta : Option (List Cookie)
  services : String → List Cookie
  legacy : String → Option (List Cookie)

/-- `AuthManager.loadOktaCookies`: read and parse the okta cookie file;
any read or parse failure yields `null` (modelled `none`). -/
def loadOktaCookies (fs : FS) : Option (List Cookie) := fs.okta

/-- `AuthManager.saveOktaCookies`: write the serialized set (and restrict
permissions, a side effect outside this state model). -/
def saveOktaCookies (fs : FS) (cookies : List Cookie) : FS :=
  { fs with okta := some cookies }

/-- `AuthManager.loadServiceCookies`: read `services/<service>.json`;
any failure yields `[]`. -/
def loadServiceCookies (fs : FS) (service : String) : List Cookie :=
  fs.services service

/-- `AuthManager.saveServiceCookies`: write `services/<service>.json`. -/
def saveServiceCookies (fs : FS) (service : String) (cookies : List Cookie) : FS :=
  { fs with services := fun t => if t = service then cookies else fs.services t }

/-- The session-marker test of `AuthManager.validateOktaSession`
(part_000 lines 384-386): `c.name === "JSESSIONID" || c.name === "idx"`. -/
def isSessionMarker (c : Cookie) : Bool :=
  c.name == "JSESSIONID" || c.name == "idx"

/-- `AuthManager.validateOktaSession` (part_000 lines 381-398): find the
first session-marker cookie; no marker is invalid; then
`if (sessionCookie.expires && sessionCookie.expires < now) return false`
(so a missing expiry, and the falsy expiry `0`, skip the check) and
otherwise the session is assumed valid. -/
def validateOktaSession (cookies : List Cookie) (now : Int) : Bool :=
  match cookies.find? isSessionMarker with
  | none => false
  | some sessionCookie =>
    match sessionCookie.expires with
    | none => true
    | some e => if e ≠ 0 ∧ e < now then false else true

/-- The result record returned by `AuthManager` operations (fields that
are absent on a given code path are `none`). -/
structure AuthResult where
  success : Bool
  message : String
  service : Option String := none
  cookies : Option (List Cookie) := none
  token : Option String := none
  deriving DecidableEq

/-- The property names every plain JavaScript object inherits from
`Object.prototype`. `SERVICE_CONFIGS` is an object literal, so the
member access `SERVICE_CONFIGS[key]` at one of these keys yields the
inherited (truthy) function or accessor instead of `undefined`. -/
def protoKeys : List String :=
  ["constructor", "hasOwnProperty", "isPrototypeOf", "propertyIsEnumerable",
   "toLocaleString", "toString", "valueOf", "__proto__",
   "__defineGetter__", "__defineSetter__", "__lookupGetter__", "__lookupSetter__"]

/-- Result of the JavaScript member access `SERVICE_CONFIGS[key]`:
an own property (a `ServiceConfig` record), a truthy value inherited
from `Object.prototype`, or `undefined`. -/
inductive JsLookup
  | own (cfg : ServiceConfig)
  | inherited
  | undef
  deriving DecidableEq

/-- The member access `SERVICE_CONFIGS[key]` with JavaScript prototype
chain semantics: own keys first, then the `Object.prototype` properties,
then `undefined`. -/
def jsGet (key : String) : JsLookup :=
  match SERVICE_CONFIGS.lookup key with
  | some cfg => JsLookup.own cfg
  | none => if key ∈ protoKeys then JsLookup.inherited else JsLookup.undef

/-- JavaScript truthiness of the looked-up `config` value: only
`undefined` is falsy; an inherited function or accessor result is
truthy. -/
def JsLookup.truthy : JsLookup → Bool
  | JsLookup.undef => false
  | _ => true

/-- The test `config.sessionType === "token"`: true only for an own
catalog entry declaring token sessions; on an inherited value
`sessionType` is `undefined` and the comparison is false. -/
def JsLookup.tokenTyped : JsLookup → Bool
  | JsLookup.own cfg => cfg.sessionType == SessionType.token
  | _ => false

/-- `AuthManager.completeServiceAuth` (part_000 lines 196-216):
`const config = SERVICE_CONFIGS[service]; if (!config)` yields the
failure result only when the member access is `undefined` — an
inherited `Object.prototype` key passes the guard — and otherwise an
"Okta authenticated, run service-specific auth" success carrying the
existing okta set is returned. -/
def completeServiceAuth (service : String) (oktaCookies : List Cookie) : AuthResult :=
  if (jsGet service).truthy = false then
    { success := false, message := "Unknown service: " ++ service }
  else
    { success := true
      message := "Okta authenticated. Run service-specific auth for " ++ service
      service := some service
      cookies := some oktaCookies }

/-- Outcome of `AuthManager.authenticate`: either a result computed from
the stored session without browser interaction, or the hand-off to the
interactive browser flow (`browserAuthenticate`). -/
inductive AuthStep
  | usedExisting (r : AuthResult)
  | interactiveLogin
  deriving DecidableEq

/-- `AuthManager.authenticate` (part_000 lines 57-91), up to the point
where control either returns a result from the stored session or enters
`browserAuthenticate` (modelled as `AuthStep.interactiveLogin`). The
inner `if (service)` is a JavaScript truthiness test: both a missing
serviceKey and the empty string fall through to the plain
"Okta authentication valid" success. The `username` argument is unused
on the session-reuse path. -/
def authenticate (fs : FS) (now : Int) (service : Option String)
    (_username : Option String) (forceRefresh : Bool) : AuthStep :=
  if forceRefresh then AuthStep.interactiveLogin
  else
    match loadOktaCookies fs with
    | none => AuthStep.interactiveLogin
    | some existingAuth =>
      if validateOktaSession existingAuth now then
        match service with
        | some s =>
          if s = "" then
            AuthStep.usedExisting
              { success := true
                message := "Okta authentication valid"
                cookies := some existingAuth }
          else AuthStep.usedExisting (completeServiceAuth s existingAuth)
        | none =>
          AuthStep.usedExisting
            { success := true
              message := "Okta authentication valid"
              cookies := some existingAuth }
      else AuthStep.interactiveLogin

/-- Per-service entry of the status snapshot. -/
structure ServiceStatus where
  authenticated : Bool
  hasServiceCookies : Bool
  deriving DecidableEq

/-- The status snapshot returned by `checkAuthStatus` (`expiresAt` is
never populated by the code and is omitted). -/
structure AuthStatus where
  okta : Bool
  services : List (String × ServiceStatus)
  deriving DecidableEq

/-- `AuthManager.checkAuthStatus` (part_000 lines 218-241): the okta flag
is validity of the loaded okta set (absent means false); every catalog
service reports `authenticated` equal to that flag and
`hasServiceCookies` equal to `serviceCookies.length > 0`. -/
def checkAuthStatus (fs : FS) (now : Int) : AuthStatus :=
  let oktaAuthenticated :=
    match loadOktaCookies fs with
    | none => false
    | some oktaCookies => validateOktaSession oktaCookies now
  { okta := oktaAuthenticated
    services := SERVICE_CONFIGS.map (fun p =>
      (p.1,
        { authenticated := oktaAuthenticated
          hasServiceCookies := decide (0 < (loadServiceCookies fs p.1).length) })) }

/-- Whether a list of characters occurs contiguously inside another:
JavaScript `String.prototype.includes` on the underlying characters. -/
def charsInclude (needle hay : List Char) : Bool :=
  match hay with
  | [] => needle.isEmpty
  | c :: t => needle.isPrefixOf (c :: t) || charsInclude needle t

/-- JavaScript `hay.includes(needle)` on strings. -/
def strIncludes (hay needle : String) : Bool :=
  charsInclude needle.data hay.data

/-- The token-cookie scan predicate of `getServiceToken` (part_000 lines
259-262): lowercased cookie name includes "token" or "session". -/
def tokenOrSession (c : Cookie) : Bool :=
  strIncludes (toLowerCase c.name) "token" || strIncludes (toLowerCase c.name) "session"

/-- The ad-hoc result object of `getServiceToken` (fields absent on a
given code path are `none`). -/
structure TokenResult where
  success : Bool
  message : Option String := none
  service : Option String := none
  token : Option String := none
  cookies : Option (List Cookie) := none
  deriving DecidableEq

/-- `AuthManager.getServiceToken` (part_000 lines 243-276):
`const config = SERVICE_CONFIGS[service]` is a JavaScript member access
with prototype-chain semantics, so `if (!config) throw` only fires when
the access is `undefined` — a raw key that is neither an own catalog key
nor an `Object.prototype` property (no lower-casing). Past the guard,
an empty service scope yields a `success: false` result; a service whose
`config.sessionType === "token"` (false for an inherited value, whose
`sessionType` is `undefined`) extracts `find(tokenOrSession)?.value`;
otherwise the cookies are returned as-is. `jsGet service` is the single
`config` binding of the source, referenced twice. -/
def getServiceToken (fs : FS) (service : String) : Except String TokenResult :=
  if (jsGet service).truthy = false then
    Except.error ("Unknown service: " ++ service)
  else
    let serviceCookies := loadServiceCookies fs service
    if serviceCookies.length = 0 then
      Except.ok { success := false, message := some ("No authentication found for " ++ service) }
    else if (jsGet service).tokenTyped then
      Except.ok
        { success := true
          service := some service
          token := (serviceCookies.find? tokenOrSession).map (fun c => c.value)
          cookies := some serviceCookies }
    else
      Except.ok { success := true, service := some service, cookies := some serviceCookies }

/-- What the tool boundary of src/index.ts sends back for one call:
either the operation's JSON-serialized result, or the catch-all payload
`{error: true, message}` built at lines 242-259. -/
inductive ToolReply
  | ok (r : TokenResult)
  | errorPayload (error : Bool) (message : String)
  deriving DecidableEq

/-- The `get_service_token` arm of the `CallToolRequestSchema` handler
(src/index.ts lines 176-186) together with its surrounding `catch`
(lines 242-259): a thrown `Error` becomes the structured
`{error: true, message: error.message}` payload. The handler is a total
function — no outcome terminates the hosting process. -/
def handleGetServiceToken (fs : FS) (service : String) : ToolReply :=
  match getServiceToken fs service with
  | Except.ok r => ToolReply.ok r
  | Except.error msg => ToolReply.errorPayload true msg

/-- The keys of the fixed `legacyPaths` mapping inside
`AuthManager.copySession` (part_000 lines 303-307). -/
def legacyPathKeys : List String := ["datahub", "splunk", "zeppelin"]

/-- `AuthManager.copySession` (part_000 lines 292-328): with no stored
okta set, fail with "No Okta session found" and touch nothing; otherwise
write the okta set to the destination's legacy file when the destination
is in the fixed legacy mapping, and report success either way. The
`fromService` argument is never read. -/
def copySession (fs : FS) (_fromService toService : String) : AuthResult × FS :=
  match loadOktaCookies fs with
  | none => ({ success := false, message := "No Okta session found" }, fs)
  | some oktaCookies =>
    let fs' :=
      if legacyPathKeys.contains toService then
        { fs with legacy := fun t => if t = toService then some oktaCookies else fs.legacy t }
      else fs
    ({ success := true, message := "Okta session copied to " ++ toService }, fs')

/-- `AuthManager.clearAuth` (part_000 lines 330-349): a missing key or
the sentinel `"all"` (or the falsy empty string, `!service`) removes the
whole auth directory and recreates it; otherwise only the one service
file is removed (`force: true`, so an absent file also succeeds). Legacy
files live outside the auth directory and are untouched. -/
def clearAuth (fs : FS) (service : Option String) : AuthResult × FS :=
  match service with
  | none =>
    ({ success := true, message := "All authentication cleared" },
     { fs with okta := none, services := fun _ => [] })
  | some s =>
    if s = "" ∨ s = "all" then
      ({ success := true, message := "All authentication cleared" },
       { fs with okta := none, services := fun _ => [] })
    else
      ({ success := true, message := "Authentication cleared for " ++ s },
       { fs with services := fun t => if t = s then [] else fs.services t })

/-- Modelled from the spec: the validity condition exactly as claim C1
words it — a recognized session marker is present and either carries no
expiry instant or carries one that is not at or before `now` (that is,
`now < e`). Used only to compare against `validateOktaSession`. -/
def claimC1Valid (cookies : List Cookie) (now : Int) : Bool :=
  match cookies.find? isSessionMarker with
  | none => false
  | some sessionCookie =>
    match sessionCookie.expires with
    | none => true
    | some e => decide (now < e)

/-! Concrete fixtures for witnesses and counterexamples. -/

/-- A store with nothing persisted. -/
def emptyFS : FS :=
  { okta := none, services := fun _ => [], legacy := fun _ => none }

/-- A one-cookie okta set whose marker carries no expiry: always valid. -/
def validOktaSet : List Cookie :=
  [{ name := "JSESSIONID", value := "abc", domain := ".okta.com", path := "/", expires := none }]

/-- A store holding only a valid okta set. -/
def fsWithOkta : FS :=
  { okta := some validOktaSet, services := fun _ => [], legacy := fun _ => none }

/-- A marker cookie whose expiry instant is exactly 5. -/
def tieMarker : Cookie :=
  { name := "JSESSIONID", value := "abc", domain := ".okta.com", path := "/", expires := some 5 }

/-- A splunk service cookie whose name matches the token scan. -/
def splunkSessionCookie : Cookie :=
  { name := "sessionKey", value := "tok-1", domain := "toast.splunkcloud.com", path := "/"
    expires := none }

/-- A datahub service cookie whose name matches no token scan. -/
def datahubCookie : Cookie :=
  { name := "auth", value := "d-1", domain := "datahub.eng.toasttab.com", path := "/"
    expires := none }

/-- A store with service cookies for splunk and datahub. -/
def fsServices : FS :=
  { okta := none
    services := fun t =>
      if t = "splunk" then [splunkSessionCookie]
      else if t = "datahub" then [datahubCookie]
      else []
    legacy := fun _ => none }

/-! Helper lemmas about the JavaScript member access, shared by the
claim proofs. -/

/-- An own catalog key resolves to its `ServiceConfig` record. -/
theorem jsGet_of_lookup_some {k : String} {cfg : ServiceConfig}
    (h : SERVICE_CONFIGS.lookup k = some cfg) : jsGet k = JsLookup.own cfg := by
  unfold jsGet
  rw [h]

/-- A non-catalog key that names an `Object.prototype` property resolves
to the truthy inherited value. -/
theorem jsGet_of_proto {k : String} (h1 : SERVICE_CONFIGS.lookup k = none)
    (h2 : k ∈ protoKeys) : jsGet k = JsLookup.inherited := by
  unfold jsGet
  rw [h1]
  exact if_pos h2

/-- A key that is neither a catalog key nor an `Object.prototype`
property resolves to `undefined`. -/
theorem jsGet_of_unknown {k : String} (h1 : SERVICE_CONFIGS.lookup k = none)
    (h2 : k ∉ protoKeys) : jsGet k = JsLookup.undef := by
  unfold jsGet
  rw [h1]
  exact if_neg h2

/-! Claim theorems. -/

/-- Claim C1, counterexample: a set whose only marker expires exactly at
`now = 5` is judged valid by `validateOktaSession` (the code test is the
strict `expires < now`), while the claim's condition — expiry not at or
before now — calls it invalid. -/
theorem validateOktaSession_claimC1_cex :
    validateOktaSession [tieMarker] 5 = true ∧ claimC1Valid [tieMarker] 5 = false := by
  constructor <;> decide

/-- Claim C1 (amended): `validateOktaSession` returns true iff a
recognized session marker is found and its expiry is missing, is the
falsy value 0, or is not strictly before `now` (an expiry exactly at
`now` still counts as valid). -/
theorem validateOktaSession_iff (cookies : List Cookie) (now : Int) :
    validateOktaSession cookies now = true ↔
      ∃ c, cookies.find? isSessionMarker = some c ∧
        (c.expires = none ∨ ∃ e, c.expires = some e ∧ (e = 0 ∨ now ≤ e)) := by
  unfold validateOktaSession
  cases hfind : cookies.find? isSessionMarker with
  | none => simp
  | some c =>
    simp only [hfind, Option.some.injEq]
    constructor
    · intro h
      refine ⟨c, rfl, ?_⟩
      cases hexp : c.expires with
      | none => exact Or.inl rfl
      | some e =>
        rw [hexp] at h
        have h' : (if e ≠ 0 ∧ e < now then false else true) = true := h
        refine Or.inr ⟨e, rfl, ?_⟩
        by_cases h0 : e = 0
        · exact Or.inl h0
        · by_cases hlt : e < now
          · rw [if_pos ⟨h0, hlt⟩] at h'
            exact absurd h' (by decide)
          · exact Or.inr (not_lt.mp hlt)
    · rintro ⟨c', hc', hcond⟩
      cases hc'
      rcases hcond with hnone | ⟨e, hexp, he⟩
      · rw [hnone]
      · rw [hexp]
        show (if e ≠ 0 ∧ e < now then false else true) = true
        rcases he with h0 | hge
        · rw [if_neg]
          rintro ⟨hne, _⟩
          exact hne h0
        · rw [if_neg]
          rintro ⟨_, hlt⟩
          exact absurd hge (not_le.mpr hlt)

/-- Claim C2, counterexample: with a stored okta set that the validator
accepts and `forceRefresh = false`, passing the serviceKey "grafana"
(not in the catalog) makes `authenticate` return a failure result —
not the success result the claim promises for every serviceKey (the
browser is still not launched). -/
theorem authenticate_claimC2_cex :
    validateOktaSession validOktaSet 0 = true ∧
    authenticate fsWithOkta 0 (some "grafana") none false =
      AuthStep.usedExisting { success := false, message := "Unknown service: grafana" } := by
  constructor <;> decide

/-- Claim C2 (amended): when `forceRefresh` is false and the stored
identity-provider set is accepted by the validator, `authenticate` never
reaches the interactive browser flow; with a falsy serviceKey (absent or
the empty string) it returns success with the existing set; with a
catalog serviceKey it returns the "run service-specific auth" success
referencing the existing set; with a truthy serviceKey that names an
`Object.prototype` property the lookup leaks the truthy inherited value
and a success referencing the existing set is likewise returned; with
any other non-catalog serviceKey it returns a failure result naming the
unknown service (still with no browser interaction). -/
theorem authenticate_reusesValidSession (fs : FS) (now : Int)
    (service username : Option String) (c : List Cookie)
    (hload : loadOktaCookies fs = some c)
    (hvalid : validateOktaSession c now = true) :
    authenticate fs now service username false ≠ AuthStep.interactiveLogin ∧
    (service = none →
      authenticate fs now service username false =
        AuthStep.usedExisting
          { success := true, message := "Okta authentication valid", cookies := some c }) ∧
    (service = some "" →
      authenticate fs now service username false =
        AuthStep.usedExisting
          { success := true, message := "Okta authentication valid", cookies := some c }) ∧
    (∀ s, service = some s → s ≠ "" →
      authenticate fs now service username false =
        AuthStep.usedExisting (completeServiceAuth s c)) ∧
    (∀ s, (SERVICE_CONFIGS.lookup s).isSome = true →
      (completeServiceAuth s c).success = true ∧ (completeServiceAuth s c).cookies = some c) ∧
    (∀ s, SERVICE_CONFIGS.lookup s = none → s ∈ protoKeys →
      (completeServiceAuth s c).success = true ∧ (completeServiceAuth s c).cookies = some c) ∧
    (∀ s, SERVICE_CONFIGS.lookup s = none → s ∉ protoKeys →
      (completeServiceAuth s c).success = false ∧
      (completeServiceAuth s c).message = "Unknown service: " ++ s) := by
  have hbody : authenticate fs now service username false =
      (match service with
       | some s =>
         if s = "" then
           AuthStep.usedExisting
             { success := true, message := "Okta authentication valid", cookies := some c }
         else AuthStep.usedExisting (completeServiceAuth s c)
       | none =>
         AuthStep.usedExisting
           { success := true, message := "Okta authentication valid", cookies := some c }) := by
    unfold authenticate
    rw [if_neg (by decide : ¬(false : Bool) = true)]
    rw [hload]
    simp only [hvalid, if_true]
  refine ⟨?_, ?_, ?_, ?_, ?_, ?_, ?_⟩
  · rw [hbody]
    cases service with
    | none => simp
    | some s =>
      by_cases hs : s = "" <;> simp [hs]
  · intro hs
    rw [hbody, hs]
  · intro hs
    rw [hbody, hs]
    simp
  · intro s hs hne
    rw [hbody, hs]
    simp [hne]
  · intro s hsome
    cases hcfg : SERVICE_CONFIGS.lookup s with
    | none => rw [hcfg] at hsome; exact absurd hsome (by decide)
    | some cfg =>
      unfold completeServiceAuth
      rw [jsGet_of_lookup_some hcfg]
      exact ⟨rfl, rfl⟩
  · intro s hnone hproto
    unfold completeServiceAuth
    rw [jsGet_of_proto hnone hproto]
    exact ⟨rfl, rfl⟩
  · intro s hnone hproto
    unfold completeServiceAuth
    rw [jsGet_of_unknown hnone hproto]
    exact ⟨rfl, rfl⟩

/-- Claim C2 witness: the amended theorem applied to a concrete store
with a valid stored okta set and the catalog serviceKey "datahub". -/
theorem authenticate_reusesValidSession_witness :
    authenticate fsWithOkta 0 (some "datahub") none false =
      AuthStep.usedExisting (completeServiceAuth "datahub" validOktaSet) ∧
    (completeServiceAuth "datahub" validOktaSet).success = true := by
  have h := authenticate_reusesValidSession fsWithOkta 0 (some "datahub") none validOktaSet
    rfl (by decide)
  exact ⟨h.2.2.2.1 "datahub" rfl (by decide), (h.2.2.2.2.1 "datahub" (by decide)).1⟩

/-- Claim C3: `checkAuthStatus` reports an okta flag equal to the
validator's verdict on the loaded okta set (false when absent), and one
entry per catalog key whose `authenticated` field mirrors that flag and
whose `hasServiceCookies` field is the non-emptiness of that service's
stored set. -/
theorem checkAuthStatus_spec (fs : FS) (now : Int) :
    (checkAuthStatus fs now).okta =
      (match loadOktaCookies fs with
       | none => false
       | some c => validateOktaSession c now) ∧
    (checkAuthStatus fs now).services =
      serviceKeys.map (fun k =>
        (k,
          { authenticated := (checkAuthStatus fs now).okta
            hasServiceCookies := decide (0 < (loadServiceCookies fs k).length) })) := by
  exact ⟨rfl, rfl⟩

/-- Claim C4, counterexample: "constructor" is not a catalog key, yet
`getServiceToken` does not throw `UnknownService` there — the member
access `SERVICE_CONFIGS["constructor"]` leaks the truthy function
inherited from `Object.prototype`, the `if (!config)` guard is not
taken, and (with an empty store) an ordinary "no authentication found"
result is returned, which the tool boundary delivers as a normal reply,
not as the `{error: true, message}` payload. -/
theorem getServiceToken_claimC4_cex :
    SERVICE_CONFIGS.lookup "constructor" = none ∧
    getServiceToken emptyFS "constructor" =
      Except.ok
        { success := false
          message := some ("No authentication found for " ++ "constructor") } ∧
    handleGetServiceToken emptyFS "constructor" =
      ToolReply.ok
        { success := false
          message := some ("No authentication found for " ++ "constructor") } :=
  ⟨by decide, rfl, rfl⟩

/-- Claim C4 (amended): a key that is neither in the catalog nor the
name of a property inherited from `Object.prototype` makes
`getServiceToken` throw `Unknown service: <key>`, and the tool boundary
of index.ts converts that throw into the structured
`{error: true, message}` payload (the handler is total — the fault never
escapes the hosting process). -/
theorem getServiceToken_unknownService (fs : FS) (k : String)
    (h : SERVICE_CONFIGS.lookup k = none) (hp : k ∉ protoKeys) :
    getServiceToken fs k = Except.error ("Unknown service: " ++ k) ∧
    handleGetServiceToken fs k = ToolReply.errorPayload true ("Unknown service: " ++ k) := by
  have h1 : getServiceToken fs k = Except.error ("Unknown service: " ++ k) := by
    unfold getServiceToken
    rw [jsGet_of_unknown h hp]
    rfl
  refine ⟨h1, ?_⟩
  unfold handleGetServiceToken
  rw [h1]

/-- Claim C4 witness: the unknown key "grafana" (no catalog entry, not a
prototype property) against the empty store. -/
theorem getServiceToken_unknownService_witness :
    getServiceToken emptyFS "grafana" = Except.error ("Unknown service: " ++ "grafana") ∧
    handleGetServiceToken emptyFS "grafana" =
      ToolReply.errorPayload true ("Unknown service: " ++ "grafana") :=
  getServiceToken_unknownService emptyFS "grafana" (by decide) (by decide)

/-- Claim C5: with no stored identity-provider set, `copySession` fails
with "No Okta session found" and returns the store unchanged — no
service scope and no legacy file is created or modified. -/
theorem copySession_noSession (fs : FS) (fromService toService : String)
    (h : loadOktaCookies fs = none) :
    copySession fs fromService toService =
      ({ success := false, message := "No Okta session found" }, fs) := by
  unfold copySession
  rw [h]

/-- Claim C5 witness: copying on the empty store. -/
theorem copySession_noSession_witness :
    copySession emptyFS "datahub" "splunk" =
      ({ success := false, message := "No Okta session found" }, emptyFS) :=
  copySession_noSession emptyFS "datahub" "splunk" rfl

/-- Claim C6: for a catalog entry declaring token-typed sessions and a
non-empty service scope, `getServiceToken` succeeds with the full
credential set, its token being the value of the first stored credential
whose lowercased name includes "token" or "session" (`List.find?` scans
in stored order); when no name matches, the result is still a success
whose token field is empty. -/
theorem getServiceToken_tokenExtraction (fs : FS) (k : String) (cfg : ServiceConfig)
    (hcfg : SERVICE_CONFIGS.lookup k = some cfg)
    (htok : cfg.sessionType = SessionType.token)
    (hne : loadServiceCookies fs k ≠ []) :
    getServiceToken fs k = Except.ok
      { success := true
        service := some k
        token := ((loadServiceCookies fs k).find? tokenOrSession).map (fun c => c.value)
        cookies := some (loadServiceCookies fs k) } ∧
    ((loadServiceCookies fs k).find? tokenOrSession = none →
      getServiceToken fs k = Except.ok
        { success := true, service := some k, token := none
          cookies := some (loadServiceCookies fs k) }) := by
  have hlen : ¬(loadServiceCookies fs k).length = 0 := by
    intro h0
    exact hne (List.length_eq_zero.mp h0)
  have h1 : getServiceToken fs k = Except.ok
      { success := true
        service := some k
        token := ((loadServiceCookies fs k).find? tokenOrSession).map (fun c => c.value)
        cookies := some (loadServiceCookies fs k) } := by
    unfold getServiceToken
    rw [jsGet_of_lookup_some hcfg]
    simp [JsLookup.truthy, JsLookup.tokenTyped, htok, hlen]
  refine ⟨h1, ?_⟩
  intro hfind
  rw [h1, hfind]
  rfl

/-- Claim C6 witness: splunk (token-typed) with one stored cookie named
"sessionKey"; the extracted token is its value. -/
theorem getServiceToken_tokenExtraction_witness :
    getServiceToken fsServices "splunk" = Except.ok
      { success := true
        service := some "splunk"
        token := some "tok-1"
        cookies := some [splunkSessionCookie] } := by
  have h := getServiceToken_tokenExtraction fsServices "splunk" splunkConfig
    (by decide) rfl (by decide)
  rw [h.1]
  rfl

/-- Claim C7: clearing one catalog service scope succeeds, empties
exactly that scope, and leaves the identity-provider scope, every other
service scope, and the legacy files untouched — also when the scope had
no record to begin with. -/
theorem clearAuth_singleScope (fs : FS) (s : String) (hs : s ∈ serviceKeys) :
    (clearAuth fs (some s)).1.success = true ∧
    loadOktaCookies (clearAuth fs (some s)).2 = loadOktaCookies fs ∧
    loadServiceCookies (clearAuth fs (some s)).2 s = [] ∧
    (∀ t, t ≠ s → loadServiceCookies (clearAuth fs (some s)).2 t = loadServiceCookies fs t) ∧
    (clearAuth fs (some s)).2.legacy = fs.legacy := by
  have h3 : s = "datahub" ∨ s = "splunk" ∨ s = "zeppelin" := by
    simpa [serviceKeys, SERVICE_CONFIGS] using hs
  have hcond : ¬(s = "" ∨ s = "all") := by
    rcases h3 with h | h | h <;> subst h <;> decide
  have hstep : clearAuth fs (some s) =
      (if s = "" ∨ s = "all" then
        ({ success := true, message := "All authentication cleared" },
         { fs with okta := none, services := fun _ => [] })
      else
        ({ success := true, message := "Authentication cleared for " ++ s },
         { fs with services := fun t => if t = s then [] else fs.services t })) := rfl
  have hbody : clearAuth fs (some s) =
      ({ success := true, message := "Authentication cleared for " ++ s },
       { fs with services := fun t => if t = s then [] else fs.services t }) := by
    rw [hstep, if_neg hcond]
  rw [hbody]
  refine ⟨rfl, rfl, ?_, ?_, rfl⟩
  · unfold loadServiceCookies
    simp
  · intro t ht
    unfold loadServiceCookies
    simp [ht]

/-- Claim C7 witness: clearing the datahub scope on a store that also
holds splunk cookies leaves the splunk scope readable unchanged. -/
theorem clearAuth_singleScope_witness :
    (clearAuth fsServices (some "datahub")).1.success = true ∧
    loadServiceCookies (clearAuth fsServices (some "datahub")).2 "splunk" =
      loadServiceCookies fsServices "splunk" := by
  have h := clearAuth_singleScope fsServices "datahub" (by decide)
  exact ⟨h.1, h.2.2.2.1 "splunk" (by decide)⟩

/-- Claim C8: saving a credential set to the identity-provider scope or
to any service scope and immediately loading that scope returns the very
same set, credentials and order included. -/
theorem store_roundTrip (fs : FS) (set : List Cookie) (s : String) :
    loadOktaCookies (saveOktaCookies fs set) = some set ∧
    loadServiceCookies (saveServiceCookies fs s set) s = set := by
  refine ⟨rfl, ?_⟩
  unfold loadServiceCookies saveServiceCookies
  simp

/-- Claim C9: with a stored identity-provider set and a destination key
outside the fixed legacy mapping (catalog membership is irrelevant),
`copySession` reports the session as copied yet writes nothing — the
store is returned unchanged — and the whole outcome is independent of
`fromService`. -/
theorem copySession_nonLegacyTarget (fs : FS) (fromService toService : String)
    (c : List Cookie)
    (hok : loadOktaCookies fs = some c)
    (hto : legacyPathKeys.contains toService = false) :
    copySession fs fromService toService =
      ({ success := true, message := "Okta session copied to " ++ toService }, fs) ∧
    (∀ f1 f2 : String, copySession fs f1 toService = copySession fs f2 toService) := by
  constructor
  · unfold copySession
    rw [hok]
    simp only [hto, Bool.false_eq_true, if_false]
  · intro f1 f2
    rfl

/-- Claim C9 witness: a valid okta store, source "datahub", destination
"grafana" (absent from the legacy mapping): success message, unchanged
store. -/
theorem copySession_nonLegacyTarget_witness :
    copySession fsWithOkta "datahub" "grafana" =
      ({ success := true, message := "Okta session copied to " ++ "grafana" }, fsWithOkta) :=
  (copySession_nonLegacyTarget fsWithOkta "datahub" "grafana" validOktaSet rfl (by decide)).1

/-- Claim C10: a key whose raw spelling is not a catalog key but whose
lower-casing is one (a case variant such as "SPLUNK") is accepted by the
registry's query methods — `isValidService` is true and `getService`
returns a descriptor — while `AuthManager.getServiceToken` looks the raw
key up and throws `Unknown service`. -/
theorem registry_caseMismatch (fs : FS) (k : String)
    (hraw : SERVICE_CONFIGS.lookup k = none)
    (hlow : (SERVICE_CONFIGS.lookup (toLowerCase k)).isSome = true) :
    isValidService k = true ∧
    (getService k).isSome = true ∧
    getServiceToken fs k = Except.error ("Unknown service: " ++ k) := by
  refine ⟨hlow, hlow, ?_⟩
  have hnp : k ∉ protoKeys := by
    intro hmem
    have h12 : k = "constructor" ∨ k = "hasOwnProperty" ∨ k = "isPrototypeOf" ∨
        k = "propertyIsEnumerable" ∨ k = "toLocaleString" ∨ k = "toString" ∨
        k = "valueOf" ∨ k = "__proto__" ∨ k = "__defineGetter__" ∨
        k = "__defineSetter__" ∨ k = "__lookupGetter__" ∨ k = "__lookupSetter__" := by
      simpa [protoKeys] using hmem
    rcases h12 with h | h | h | h | h | h | h | h | h | h | h | h <;> subst h <;>
      exact absurd hlow (by decide)
  unfold getServiceToken
  rw [jsGet_of_unknown hraw hnp]
  rfl

/-- Claim C10 witness: the case variant "SPLUNK" on the empty store. -/
theorem registry_caseMismatch_witness :
    isValidService "SPLUNK" = true ∧
    (getService "SPLUNK").isSome = true ∧
    getServiceToken emptyFS "SPLUNK" = Except.error ("Unknown service: " ++ "SPLUNK") :=
  registry_caseMismatch emptyFS "SPLUNK" (by decide) (by decide)

end McpOktaAuth
